import Mathlib

/-!
Shallow embedding of the `kim_scanner` barcode-scanner connector
(`src/lib.rs`, `src/connector/{serial,network,connector}.rs`,
`src/error/scanner.rs`) together with proofs about its connection
lifecycle manager, connection sessions, command channel and error
taxonomy.

Conventions of the embedding:
* Pure Rust functions become Lean functions over the same data.
* The tokio tasks (reader loop / writer loop / supervising manager loop)
  become functions of explicit input scripts (the sequence of read
  results the transport delivers) or small-step transition relations.
* `Result<Result<(), ScannerError>, ScannerError>` becomes
  `Except ScannerError (Except ScannerError Unit)`.
* Machine integers (`u16`, `u32`) are modelled as `Nat`; no arithmetic
  in this code can overflow.
-/

namespace KimScanner

/-! ## Data model (`src/connector/serial.rs`, `network.rs`, `connector.rs`) -/

/-- Stop bits (`StopBits` in `src/connector/serial.rs`). -/
inductive StopBits where
  | none
  | one
  | two
  | onePointFive
deriving DecidableEq, Repr

/-- Parity (`Parity` in `src/connector/serial.rs`). -/
inductive Parity where
  | none
  | odd
  | even
  | mark
  | space
deriving DecidableEq, Repr

/-- Serial descriptor (`Serial` in `src/connector/serial.rs`). -/
structure Serial where
  name : String
  baudrate : Nat
  databits : Nat
  stopbits : StopBits
  parity : Parity
deriving DecidableEq, Repr

/-- Network descriptor (`Network` in `src/connector/network.rs`). -/
structure Network where
  ip : String
  port : Nat
  is_server : Bool
deriving DecidableEq, Repr

/-- Transport descriptor (`Connector` in `src/connector/connector.rs`). -/
inductive Connector where
  | serial (conn : Serial)
  | network (conn : Network)
deriving DecidableEq, Repr

/-- Embedding of `Connector::to_string` (`src/connector/connector.rs`):
`"name"` for serial, `"ip:port"` for network. -/
def Connector.display : Connector → String
  | Connector.serial conn => conn.name
  | Connector.network conn => conn.ip ++ ":" ++ toString conn.port

/-- Error taxonomy (`ScannerError` in `src/error/scanner.rs`).
`io` wraps the display of the underlying `std::io::Error`. -/
inductive ScannerError where
  | io (msg : String)
  | param (msg : String)
  | comm (msg : String)
deriving DecidableEq, Repr

deriving instance DecidableEq for Except

/-- Embedding of `type ScannerResult = Result<Result<(), ScannerError>, ScannerError>`
(`src/lib.rs` line 31). The outer error is fatal for the manager loop,
the inner error is a non-fatal session outcome. -/
abbrev ScannerResult := Except ScannerError (Except ScannerError Unit)

/-- The `Scanner` struct (`src/lib.rs` lines 18-28).  The
`tokio::sync::mpsc` channel pair (`sender`/`receiver`) is modelled by
the queue of command strings currently buffered in the channel; the
channel is created exactly once in `Scanner::new`, so the queue state
persists for the life of the value, across all sessions. -/
structure Scanner where
  connector : Connector
  timeout : Option Nat
  queue : List String
deriving DecidableEq, Repr

/-- Embedding of `Scanner::new` (`src/lib.rs` lines 48-56): fresh bounded channel,
no timeout configured. -/
def Scanner.new (connector : Connector) : Scanner :=
  { connector := connector, timeout := none, queue := [] }

/-! ## Lossy UTF-8 decoding (`String::from_utf8_lossy`)

Both reader loops decode each received chunk with
`String::from_utf8_lossy`.  The embedding below follows the byte-level
algorithm of Rust's `core::str` UTF-8 validation: ASCII passes through,
multi-byte sequences are decoded when their continuation bytes are in
the ranges required for a shortest-form scalar value, and every
maximal invalid subpart is replaced by one U+FFFD replacement
character (an incomplete sequence at the end of the chunk also becomes
a single U+FFFD). -/

/-- The U+FFFD replacement character. -/
def replacementChar : Char := Char.ofNat 0xFFFD

/-- Is `b` a UTF-8 continuation byte (`0x80..=0xBF`)? -/
def contByte (b : Nat) : Bool := 0x80 ≤ b && b ≤ 0xBF

/-- Valid range for the first continuation byte after a three-byte
lead `b` (excludes overlong forms and surrogates). -/
def cont3First (b b2 : Nat) : Bool :=
  if b = 0xE0 then 0xA0 ≤ b2 && b2 ≤ 0xBF
  else if b = 0xED then 0x80 ≤ b2 && b2 ≤ 0x9F
  else contByte b2

/-- Valid range for the first continuation byte after a four-byte
lead `b` (excludes overlong forms and values beyond U+10FFFF). -/
def cont4First (b b2 : Nat) : Bool :=
  if b = 0xF0 then 0x90 ≤ b2 && b2 ≤ 0xBF
  else if b = 0xF4 then 0x80 ≤ b2 && b2 ≤ 0x8F
  else contByte b2

/-- Lossy UTF-8 decoding, fuelled for structural recursion: every
iteration consumes at least one byte, so running with `fuel` equal to
the length of the byte list (as `utf8Lossy` below does) never exhausts
the fuel. -/
def utf8LossyGo : Nat → List Nat → List Char
  | 0, _ => []
  | Nat.succ _, [] => []
  | Nat.succ fuel, b :: rest =>
    if b < 0x80 then
      Char.ofNat b :: utf8LossyGo fuel rest
    else if 0xC2 ≤ b && b ≤ 0xDF then
      match rest with
      | [] => [replacementChar]
      | b2 :: rest2 =>
        if contByte b2 then
          Char.ofNat ((b - 0xC0) * 64 + (b2 - 0x80)) :: utf8LossyGo fuel rest2
        else
          replacementChar :: utf8LossyGo fuel rest
    else if 0xE0 ≤ b && b ≤ 0xEF then
      match rest with
      | [] => [replacementChar]
      | b2 :: rest2 =>
        if cont3First b b2 then
          match rest2 with
          | [] => [replacementChar]
          | b3 :: rest3 =>
            if contByte b3 then
              Char.ofNat ((b - 0xE0) * 4096 + (b2 - 0x80) * 64 + (b3 - 0x80)) ::
                utf8LossyGo fuel rest3
            else
              replacementChar :: utf8LossyGo fuel rest2
        else
          replacementChar :: utf8LossyGo fuel rest
    else if 0xF0 ≤ b && b ≤ 0xF4 then
      match rest with
      | [] => [replacementChar]
      | b2 :: rest2 =>
        if cont4First b b2 then
          match rest2 with
          | [] => [replacementChar]
          | b3 :: rest3 =>
            if contByte b3 then
              match rest3 with
              | [] => [replacementChar]
              | b4 :: rest4 =>
                if contByte b4 then
                  Char.ofNat
                      ((b - 0xF0) * 262144 + (b2 - 0x80) * 4096 +
                        (b3 - 0x80) * 64 + (b4 - 0x80)) ::
                    utf8LossyGo fuel rest4
                else
                  replacementChar :: utf8LossyGo fuel rest3
            else
              replacementChar :: utf8LossyGo fuel rest2
        else
          replacementChar :: utf8LossyGo fuel rest
    else
      replacementChar :: utf8LossyGo fuel rest

/-- Lossy UTF-8 decoding of a byte list, as performed by
`String::from_utf8_lossy` on the receive buffer slice. -/
def utf8Lossy (bs : List Nat) : List Char := utf8LossyGo bs.length bs

/-! ## Splitting received text on line terminators -/

/-- Character-predicate split, as `str::split` with the pattern
`&['\r', '\n'][..]`: every terminator character ends the current
(possibly empty) segment. -/
def splitByAux (p : Char → Bool) : List Char → List Char → List (List Char)
  | [], acc => [acc.reverse]
  | c :: rest, acc =>
    if p c then acc.reverse :: splitByAux p rest []
    else splitByAux p rest (c :: acc)

/-- The line-terminator pattern `&['\r', '\n'][..]` of `src/lib.rs`
line 410. -/
def isLineTerm (c : Char) : Bool := c == '\r' || c == '\n'

/-- Barcode events emitted by one serial reader iteration on an `n > 0`
byte chunk (`src/lib.rs` lines 408-415): decode lossily, split on
`'\r'`/`'\n'`, emit each segment with `len() > 0`. -/
def serialChunkEvents (bytes : List Nat) : List String :=
  ((splitByAux isLineTerm (utf8Lossy bytes) []).filter
      (fun barcode => barcode.length > 0)).map String.mk

/-! ## Reader loops

Each session runs a reader loop (`src/lib.rs` lines 191-215 for the
network server, 284-308 for the network client, 400-427 for serial)
that repeatedly calls `read` into a 1024-byte buffer.  The embedding
scripts the transport: each `ReadStep` is the result of one `read`
call.  A loop run returns the barcode events it emitted (in order) and
how it ended. -/

/-- Result of one `read` call on the transport. -/
inductive ReadStep where
  | ok (bytes : List Nat)
  | err (msg : String)
deriving DecidableEq, Repr

/-- How a reader loop ended. -/
inductive LoopEnd where
  /-- Zero-byte read: peer closed, loop breaks. -/
  | closed
  /-- `read` returned an error: loop breaks. -/
  | failed (msg : String)
  /-- Script exhausted: the loop is still awaiting the next read. -/
  | reading
deriving DecidableEq, Repr

/-- The serial reader loop (`src/lib.rs` lines 400-427): an `n > 0`
read is decoded lossily, split on line terminators, and each non-empty
segment is emitted as a barcode event. -/
def serialReadLoop : List ReadStep → List String × LoopEnd
  | [] => ([], LoopEnd.reading)
  | ReadStep.ok bytes :: rest =>
    if bytes.length = 0 then ([], LoopEnd.closed)
    else
      let r := serialReadLoop rest
      (serialChunkEvents bytes ++ r.1, r.2)
  | ReadStep.err msg :: _ => ([], LoopEnd.failed msg)

/-- The network reader loop, identical in the server (`src/lib.rs`
lines 191-215) and client (lines 284-308) sessions: an `n > 0` read is
decoded lossily and reported as a single barcode event carrying the
whole decoded chunk (no splitting on line terminators). -/
def networkReadLoop : List ReadStep → List String × LoopEnd
  | [] => ([], LoopEnd.reading)
  | ReadStep.ok bytes :: rest =>
    if bytes.length = 0 then ([], LoopEnd.closed)
    else
      let r := networkReadLoop rest
      (String.mk (utf8Lossy bytes) :: r.1, r.2)
  | ReadStep.err msg :: _ => ([], LoopEnd.failed msg)

/-! ## Serial open settings (`src/lib.rs` lines 376-381)

`start_serial` builds the port with
`tokio_serial::new(&addr, conn.baudrate()).stop_bits(One).parity(None).timeout(timeout)`:
the stop bits and parity are hardcoded, the data bits are left at the
builder's default of 8, and the timeout is the configured one or 60
seconds. -/

/-- The settings actually passed to the serial open call. -/
structure SerialOpenSettings where
  path : String
  baud : Nat
  databits : Nat
  stopbits : StopBits
  parity : Parity
  timeoutSecs : Nat
deriving DecidableEq, Repr

/-- Settings built by `start_serial` from the descriptor and the
manager's optional timeout (`src/lib.rs` lines 376-381).  `databits`
is the `tokio_serial::new` builder default (8); the descriptor's
`databits`, `stopbits` and `parity` fields are never consulted. -/
def serialOpenSettings (conn : Serial) (timeout : Option Nat) : SerialOpenSettings :=
  { path := conn.name
    baud := conn.baudrate
    databits := 8
    stopbits := StopBits.one
    parity := Parity.none
    timeoutSecs := timeout.getD 60 }

/-! ## Mode-specific session routines

`start_network_server`, `start_network_client` and `start_serial`
(`src/lib.rs` lines 145-249, 252-342, 345-430).  The environment
(outcomes of bind / accept / connect / open and the read script) is
passed explicitly.  A routine returns `none` when it has not yet
returned in the real program (its reader loop is still awaiting data);
otherwise it returns the `ScannerResult` together with the barcode
events the session emitted. -/

/-- Transport-level environment of one `start_network_server` run. -/
structure ServerEnv where
  bindErr : Option String
  acceptErr : Option String
  script : List ReadStep

/-- Embedding of `Scanner::start_network_server` (`src/lib.rs` lines 145-249):
serial descriptor ⇒ Parameter error; bind failure ⇒ `Ok(Err(Io))`;
accept failure ⇒ outer `Err(Comm)`; otherwise run the paired loops and
return `Ok(Ok(()))` once the reader loop ends. -/
def start_network_server (c : Connector) (env : ServerEnv) :
    Option (ScannerResult × List String) :=
  match c with
  | Connector.serial conn =>
    some (Except.error (ScannerError.param
      ("此处应该是网络参数，但是却收到了串口参数(" ++ conn.name ++ ")")), [])
  | Connector.network _ =>
    match env.bindErr with
    | some e => some (Except.ok (Except.error (ScannerError.io e)), [])
    | none =>
      match env.acceptErr with
      | some e => some (Except.error (ScannerError.comm e), [])
      | none =>
        match networkReadLoop env.script with
        | (_, LoopEnd.reading) => none
        | (events, _) => some (Except.ok (Except.ok ()), events)

/-- Embedding of `Scanner::start_network_client` (`src/lib.rs` lines 252-342):
serial descriptor ⇒ Parameter error; connect failure ⇒ `Ok(Err(Comm))`;
otherwise run the paired loops and return `Ok(Ok(()))` once the reader
loop ends. -/
def start_network_client (c : Connector) (connectErr : Option String)
    (script : List ReadStep) : Option (ScannerResult × List String) :=
  match c with
  | Connector.serial conn =>
    some (Except.error (ScannerError.param
      ("此处应该是网络参数，但是却收到了串口参数(" ++ conn.name ++ ")")), [])
  | Connector.network _ =>
    match connectErr with
    | some e => some (Except.ok (Except.error (ScannerError.comm e)), [])
    | none =>
      match networkReadLoop script with
      | (_, LoopEnd.reading) => none
      | (events, _) => some (Except.ok (Except.ok ()), events)

/-- Transport-level environment of one `start_serial` run: the open
outcome as a function of the requested settings, and the read script
after a successful open. -/
structure SerialEnv where
  openResult : SerialOpenSettings → Option String
  script : List ReadStep

/-- Embedding of `Scanner::start_serial` (`src/lib.rs` lines 345-430): network
descriptor ⇒ Parameter error; open failure ⇒ `Ok(Err(Comm))`;
otherwise run the read loop synchronously and return `Ok(Ok(()))` once
it ends (whether by zero-byte read or read error). -/
def start_serial (sc : Scanner) (env : SerialEnv) :
    Option (ScannerResult × List String) :=
  match sc.connector with
  | Connector.network conn =>
    some (Except.error (ScannerError.param
      ("此处应该是串口参数，但是却收到了网络参数(" ++ conn.ip ++ ":" ++
        toString conn.port ++ ")")), [])
  | Connector.serial conn =>
    match env.openResult (serialOpenSettings conn sc.timeout) with
    | some e => some (Except.ok (Except.error (ScannerError.comm e)), [])
    | none =>
      match serialReadLoop env.script with
      | (_, LoopEnd.reading) => none
      | (events, _) => some (Except.ok (Except.ok ()), events)

/-! ## Manager retry loops (`Scanner::start`, `src/lib.rs` lines 75-142) -/

/-- What the supervising loop does with one session outcome. -/
inductive ManagerAction where
  /-- `break`: the supervising task stops permanently. -/
  | terminate
  /-- Start the next loop iteration after `delaySecs` seconds. -/
  | restart (delaySecs : Nat)
deriving DecidableEq, Repr

/-- The serial supervising loop body (`src/lib.rs` lines 87-104): an
outer error breaks the loop; otherwise it sleeps 3 seconds and
restarts. -/
def serialManagerStep (r : ScannerResult) : ManagerAction :=
  match r with
  | Except.error _ => ManagerAction.terminate
  | Except.ok _ => ManagerAction.restart 3

/-- The network supervising loop body (`src/lib.rs` lines 114-138): an
outer error breaks the loop; otherwise the next iteration starts
immediately, with no delay. -/
def networkManagerStep (r : ScannerResult) : ManagerAction :=
  match r with
  | Except.error _ => ManagerAction.terminate
  | Except.ok _ => ManagerAction.restart 0

/-! ## IPv4 validation (`Ipv4Addr::from_str`, used at `src/lib.rs` line 107)

Rust's IPv4 parser accepts exactly four dot-separated decimal octets,
each of one to three digits with no leading zero, each at most 255,
with no other characters. -/

/-- Numeric value of one candidate octet, or `none` if it is not a
valid IPv4 octet. -/
def ipv4Octet (cs : List Char) : Option Nat :=
  if cs ≠ [] && cs.all Char.isDigit && cs.length ≤ 3 &&
      !(1 < cs.length && cs.head? == some '0') then
    let v := cs.foldl (fun a c => a * 10 + (c.toNat - 48)) 0
    if v ≤ 255 then some v else none
  else none

/-- Embedding of `Ipv4Addr::from_str`: parse `a.b.c.d`. -/
def parseIpv4 (s : String) : Option (Nat × Nat × Nat × Nat) :=
  match (splitByAux (fun c => c == '.') s.data []).map ipv4Octet with
  | [some a, some b, some c, some d] => some (a, b, c, d)
  | _ => none

/-- The serial-name validation of `Scanner::start` (`src/lib.rs` line
81): `name.to_lowercase().starts_with("com")`.  (Rust's
`to_lowercase` and Lean's `Char.toLower` agree on the ASCII letters
relevant to the three-character test.) -/
def startsWithCom (name : String) : Bool :=
  match name.data.map Char.toLower with
  | 'c' :: 'o' :: 'm' :: _ => true
  | _ => false

/-- The caller-visible outcome of `Scanner::start`: the synchronous
`ScannerResult` plus whether the supervising background task was
spawned (`tokio::spawn`).  All transport I/O happens inside the
spawned task, so `spawned = false` means no socket or port was
touched. -/
structure StartOutcome where
  result : ScannerResult
  spawned : Bool
deriving DecidableEq, Repr

/-- Embedding of `Scanner::start` (`src/lib.rs` lines 75-142): synchronous
validation; on success the supervising retry loop is spawned and the
call returns `Ok(Ok(()))` immediately. -/
def Scanner.start (sc : Scanner) : StartOutcome :=
  match sc.connector with
  | Connector.serial conn =>
    if !startsWithCom conn.name then
      { result := Except.error (ScannerError.param
          ("无效的串口名称,name=" ++ conn.name))
        spawned := false }
    else
      { result := Except.ok (Except.ok ()), spawned := true }
  | Connector.network conn =>
    if (parseIpv4 conn.ip).isNone then
      { result := Except.error (ScannerError.param
          ("无效的IP地址,ip=" ++ conn.ip))
        spawned := false }
    else
      { result := Except.ok (Except.ok ()), spawned := true }

/-! ## Command channel (`src/lib.rs` lines 49, 65-72, 218-235)

`Scanner::new` creates one `mpsc::channel::<String>(100)`; the sender
side is used by `send_message`, the receiver side is locked by the
active session's writer loop, which dequeues commands and writes them
to the wire in order. -/

/-- The channel bound chosen in `Scanner::new` (`src/lib.rs` line 49). -/
def channelCapacity : Nat := 100

/-- Embedding of `sender.send(cmd).await` (`src/lib.rs` lines 65-72): appends to
the queue; when the queue is full the caller suspends (modelled as
`none`).  The receiver lives inside the `Scanner` for its whole life,
so the closed-channel error path of `send_message` is unreachable. -/
def channelSend (q : List String) (cmd : String) : Option (List String) :=
  if q.length < channelCapacity then some (q ++ [cmd]) else none

/-- A sequence of `send_message` calls, threaded through the channel
state. -/
def enqueueAll (q : List String) : List String → Option (List String)
  | [] => some q
  | c :: cs =>
    match channelSend q c with
    | some q2 => enqueueAll q2 cs
    | none => none

/-- The writer loop (`src/lib.rs` lines 218-235) as wire traffic: it
dequeues the buffered commands one at a time and writes each to the
wire, preserving order, until the channel is empty (then it suspends
on `recv`). -/
def writerDrain : List String → List String
  | [] => []
  | c :: rest => c :: writerDrain rest

/-- The network-client manager loop threaded over connection attempts
(`src/lib.rs` lines 114-138 with `start_network_client`): each failed
connect returns `Ok(Err(Comm))` before the writer ever locks the
receiver (`src/lib.rs` lines 264-273), leaving the queue untouched;
the first successful connect hands the queue to the session's writer,
which drains it onto the wire. -/
def clientManagerWire : List (Option String) → List String → List String
  | [], _ => []
  | some _ :: rest, q => clientManagerWire rest q
  | none :: _, q => writerDrain q

/-! ## Session pairing discipline (`src/lib.rs` lines 188-248, 281-341)

After establishing the connection, both network session routines spawn
a reader task and a writer task, `await` the reader's handle, and then
`abort()` the writer.  The state machine below is the embedding of
that discipline.  The writer loop (lines 218-235) is guarded only by
its own state — it consults the channel and the write result, never
the reader — so in the window between the reader loop breaking (for
instance on the zero-byte read of a TCP half-close, which leaves our
write half open) and `write_handle.abort()` taking effect, the writer
can still complete a successful send. -/

/-- Joint state of one connection session's two tasks. -/
structure SessionState where
  /-- The reader task has finished (its loop broke on a zero-byte read
  or a read error). -/
  readerDone : Bool
  /-- The writer task broke out of its own loop (write error). -/
  writerDone : Bool
  /-- The session called `write_handle.abort()`. -/
  writerAborted : Bool
  /-- The session routine has returned. -/
  returned : Bool
  /-- Number of successful writes performed by the writer task. -/
  sends : Nat
deriving DecidableEq, Repr

/-- Session state right after both tasks are spawned. -/
def initSession : SessionState :=
  { readerDone := false, writerDone := false, writerAborted := false
    returned := false, sends := 0 }

/-- One scheduling step of the session (`src/lib.rs` lines 188-248). -/
inductive SessionStep : SessionState → SessionState → Prop where
  /-- The writer dequeues a command and writes it successfully
  (lines 220-224): possible whenever the writer's own loop is alive
  and the task has not been aborted — the writer never consults the
  reader's state. -/
  | writerSend (s : SessionState) (h1 : s.writerDone = false)
      (h2 : s.writerAborted = false) :
      SessionStep s { s with sends := s.sends + 1 }
  /-- A write fails and the writer loop breaks (lines 225-233). -/
  | writerFail (s : SessionState) (h1 : s.writerDone = false)
      (h2 : s.writerAborted = false) :
      SessionStep s { s with writerDone := true }
  /-- The reader loop breaks, by zero-byte read or read error
  (lines 196-212). -/
  | readerEnd (s : SessionState) (h : s.readerDone = false) :
      SessionStep s { s with readerDone := true }
  /-- `read_handle.await` completes and the session immediately calls
  `write_handle.abort()` and returns (lines 237-248). -/
  | joinAbort (s : SessionState) (h1 : s.readerDone = true)
      (h2 : s.returned = false) :
      SessionStep s { s with writerAborted := true, returned := true }

/-- States a session can actually be in. -/
inductive SessionReachable : SessionState → Prop where
  | init : SessionReachable initSession
  | step {s t : SessionState} :
      SessionReachable s → SessionStep s t → SessionReachable t

/-! ## Claims C2, C5, C6, C7, C8, C9, C10 -/

/-- Claim C2, counterexample: a TCP accept failure is returned as an
OUTER Communication error, which the network manager loop treats as
fatal (`terminate`), so after an accept failure the manager stops
rather than restarting the accept loop; moreover a bind failure is
classified as an I/O error, not a Communication error.  This refutes
the claim that every connect/accept/bind failure is a Communication
error retried immediately and that only a mode mismatch escapes the
loop. -/
theorem c2_accept_failure_is_terminal :
    start_network_server (Connector.network ⟨"127.0.0.1", 6000, true⟩)
        ⟨none, some "connection reset", []⟩
      = some (Except.error (ScannerError.comm "connection reset"), [])
  ∧ networkManagerStep (Except.error (ScannerError.comm "connection reset"))
      = ManagerAction.terminate
  ∧ start_network_server (Connector.network ⟨"127.0.0.1", 6000, true⟩)
        ⟨some "address in use", none, []⟩
      = some (Except.ok (Except.error (ScannerError.io "address in use")), []) :=
  ⟨rfl, rfl, rfl⟩

/-- Claim C2 (amended): for every network-mode manager, a client
connect failure is an inner Communication error and a server bind
failure an inner I/O error, both retried immediately (restart with no
delay); a TCP accept failure is returned as an outer Communication
error that escapes the retry loop and terminates the manager
permanently, just like a descriptor/mode mismatch. -/
theorem c2_network_error_policy (n : Network) (e : String)
    (acceptErr : Option String) (script : List ReadStep) :
    start_network_server (Connector.network n) ⟨some e, acceptErr, script⟩
      = some (Except.ok (Except.error (ScannerError.io e)), [])
  ∧ networkManagerStep (Except.ok (Except.error (ScannerError.io e)))
      = ManagerAction.restart 0
  ∧ start_network_server (Connector.network n) ⟨none, some e, script⟩
      = some (Except.error (ScannerError.comm e), [])
  ∧ networkManagerStep (Except.error (ScannerError.comm e))
      = ManagerAction.terminate
  ∧ start_network_client (Connector.network n) (some e) script
      = some (Except.ok (Except.error (ScannerError.comm e)), [])
  ∧ networkManagerStep (Except.ok (Except.error (ScannerError.comm e)))
      = ManagerAction.restart 0 :=
  ⟨rfl, rfl, rfl, rfl, rfl, rfl⟩

/-- Claim C5, counterexample: `"::1"` is the canonical IPv6 loopback
literal, yet `start()` rejects it with a synchronous Parameter error
(and never spawns the supervising task), because the validation uses
`Ipv4Addr::from_str` only.  This refutes the claim that every valid
IPv4/IPv6 network address literal passes validation. -/
theorem c5_ipv6_literal_rejected :
    (Scanner.new (Connector.network ⟨"::1", 6000, false⟩)).start
      = { result := Except.error (ScannerError.param "无效的IP地址,ip=::1")
          spawned := false } := by
  decide

/-- Claim C5 (amended): for every network descriptor whose IP string
parses as an IPv4 literal, `start()` returns a non-error outer result
(and spawns the supervising task); for every IP string that does not
parse as IPv4 — including valid IPv6 literals — `start()` returns a
Parameter error synchronously, before any socket operation (the
supervising task, which performs all socket I/O, is never spawned). -/
theorem c5_ipv4_only_validation (n : Network) :
    ((parseIpv4 n.ip).isSome = true →
      (Scanner.new (Connector.network n)).start
        = { result := Except.ok (Except.ok ()), spawned := true })
  ∧ ((parseIpv4 n.ip).isSome = false →
      (Scanner.new (Connector.network n)).start
        = { result := Except.error (ScannerError.param
              ("无效的IP地址,ip=" ++ n.ip))
            spawned := false }) := by
  constructor <;> intro h <;>
    simp [Scanner.start, Scanner.new, Option.isNone_iff_eq_none,
      Option.isSome_iff_ne_none] at h ⊢ <;>
    simp [h]

/-- Witness for C5's amended theorem at `"127.0.0.1"` (valid) and
`"12345"` (invalid). -/
theorem c5_ipv4_only_validation_witness :
    (Scanner.new (Connector.network ⟨"127.0.0.1", 6000, true⟩)).start
      = { result := Except.ok (Except.ok ()), spawned := true }
  ∧ (Scanner.new (Connector.network ⟨"12345", 6000, true⟩)).start
      = { result := Except.error (ScannerError.param
            ("无效的IP地址,ip=" ++ "12345"))
          spawned := false } :=
  ⟨(c5_ipv4_only_validation ⟨"127.0.0.1", 6000, true⟩).1 (by decide),
   (c5_ipv4_only_validation ⟨"12345", 6000, true⟩).2 (by decide)⟩

/-- Claim C6: for every serial descriptor, `start()` returns a
Parameter error synchronously (without spawning the supervising task,
hence before any I/O) exactly when the device name does not begin
case-insensitively with the `"com"` port prefix; a matching name
passes validation and `start()` returns a non-error outer result.  The
model's `start` consults no device at all, so a matching name succeeds
even if the port does not exist. -/
theorem c6_serial_name_validation (conn : Serial) :
    (startsWithCom conn.name = false →
      (Scanner.new (Connector.serial conn)).start
        = { result := Except.error (ScannerError.param
              ("无效的串口名称,name=" ++ conn.name))
            spawned := false })
  ∧ (startsWithCom conn.name = true →
      (Scanner.new (Connector.serial conn)).start
        = { result := Except.ok (Except.ok ()), spawned := true }) := by
  constructor <;> intro h <;> simp [Scanner.start, Scanner.new, h]

/-- Witness for C6 at the non-matching name `"tty0"` and the matching
name `"COM3"`. -/
theorem c6_serial_name_validation_witness :
    (Scanner.new (Connector.serial ⟨"tty0", 9600, 8, StopBits.one, Parity.none⟩)).start
      = { result := Except.error (ScannerError.param
            ("无效的串口名称,name=" ++ "tty0"))
          spawned := false }
  ∧ (Scanner.new (Connector.serial ⟨"COM3", 9600, 8, StopBits.one, Parity.none⟩)).start
      = { result := Except.ok (Except.ok ()), spawned := true } :=
  ⟨(c6_serial_name_validation ⟨"tty0", 9600, 8, StopBits.one, Parity.none⟩).1 (by decide),
   (c6_serial_name_validation ⟨"COM3", 9600, 8, StopBits.one, Parity.none⟩).2 (by decide)⟩

/-- Claim C7: in serial mode, a failed open is returned as a non-fatal
Communication error (inner `Err`, outer `Ok`) and the manager then
sleeps 3 seconds and restarts; an empty read and a read I/O error
likewise produce outer-`Ok` outcomes with the same delayed restart;
and with a serial descriptor the routine can never return an outer
error, so the loop never terminates on its own for non-Parameter
outcomes. -/
theorem c7_serial_nonfatal_retry (conn : Serial) (t : Option Nat) (q : List String)
    (e msg : String) (script : List ReadStep)
    (opener : SerialOpenSettings → Option String)
    (hopen : opener (serialOpenSettings conn t) = none) :
    (start_serial ⟨Connector.serial conn, t, q⟩ ⟨fun _ => some e, script⟩
        = some (Except.ok (Except.error (ScannerError.comm e)), [])
      ∧ serialManagerStep (Except.ok (Except.error (ScannerError.comm e)))
          = ManagerAction.restart 3)
  ∧ start_serial ⟨Connector.serial conn, t, q⟩ ⟨opener, ReadStep.ok [] :: script⟩
      = some (Except.ok (Except.ok ()), [])
  ∧ start_serial ⟨Connector.serial conn, t, q⟩ ⟨opener, ReadStep.err msg :: script⟩
      = some (Except.ok (Except.ok ()), [])
  ∧ (∀ env r evs, start_serial ⟨Connector.serial conn, t, q⟩ env = some (r, evs) →
      (∃ inner, r = Except.ok inner) ∧ serialManagerStep r = ManagerAction.restart 3) := by
  refine ⟨⟨rfl, rfl⟩, ?_, ?_, ?_⟩
  · simp [start_serial, hopen, serialReadLoop]
  · simp [start_serial, hopen, serialReadLoop]
  · intro env r evs h
    simp only [start_serial] at h
    cases hop : env.openResult (serialOpenSettings conn t) with
    | some e2 =>
      rw [hop] at h
      cases h
      exact ⟨⟨Except.error (ScannerError.comm e2), rfl⟩, rfl⟩
    | none =>
      rw [hop] at h
      cases hl : serialReadLoop env.script with
      | mk events eend =>
        rw [hl] at h
        cases eend with
        | reading => cases h
        | closed => cases h; exact ⟨⟨Except.ok (), rfl⟩, rfl⟩
        | failed m => cases h; exact ⟨⟨Except.ok (), rfl⟩, rfl⟩

/-- Witness for C7: a serial scanner on `"COM1"` whose port fails to
open retries as a Communication error. -/
theorem c7_serial_nonfatal_retry_witness :
    start_serial ⟨Connector.serial ⟨"COM1", 9600, 8, StopBits.one, Parity.none⟩, none, []⟩
        ⟨fun _ => some "no such port", []⟩
      = some (Except.ok (Except.error (ScannerError.comm "no such port")), [])
  ∧ serialManagerStep (Except.ok (Except.error (ScannerError.comm "no such port")))
      = ManagerAction.restart 3 :=
  (c7_serial_nonfatal_retry ⟨"COM1", 9600, 8, StopBits.one, Parity.none⟩ none []
    "no such port" "x" [] (fun _ => none) rfl).1

/-- Claim C8: a zero-byte read ends the session without emitting any
barcode event, the session routine returns the success outcome
`Ok(Ok(()))` in every mode, and both managers treat that outcome as
restartable (serial: after 3 seconds; network: immediately). -/
theorem c8_zero_read_clean_end (rest : List ReadStep) (s : Serial) (n : Network)
    (t : Option Nat) (q : List String) :
    serialReadLoop (ReadStep.ok [] :: rest) = ([], LoopEnd.closed)
  ∧ networkReadLoop (ReadStep.ok [] :: rest) = ([], LoopEnd.closed)
  ∧ start_serial ⟨Connector.serial s, t, q⟩ ⟨fun _ => none, ReadStep.ok [] :: rest⟩
      = some (Except.ok (Except.ok ()), [])
  ∧ start_network_server (Connector.network n) ⟨none, none, ReadStep.ok [] :: rest⟩
      = some (Except.ok (Except.ok ()), [])
  ∧ start_network_client (Connector.network n) none (ReadStep.ok [] :: rest)
      = some (Except.ok (Except.ok ()), [])
  ∧ serialManagerStep (Except.ok (Except.ok ())) = ManagerAction.restart 3
  ∧ networkManagerStep (Except.ok (Except.ok ())) = ManagerAction.restart 0 := by
  refine ⟨rfl, rfl, ?_, ?_, ?_, rfl, rfl⟩ <;>
    simp [start_serial, start_network_server, start_network_client,
      serialReadLoop, networkReadLoop]

/-- Claim C9: each mode-specific routine invoked with a descriptor of
the other variant returns a Parameter error at the top, and the result
does not depend on any transport environment, so no I/O is attempted. -/
theorem c9_mode_mismatch_guard (s : Serial) (n : Network)
    (env env2 : ServerEnv) (ce ce2 : Option String)
    (sc sc2 : List ReadStep) (senv senv2 : SerialEnv)
    (t : Option Nat) (q : List String) :
    start_network_server (Connector.serial s) env
      = some (Except.error (ScannerError.param
          ("此处应该是网络参数，但是却收到了串口参数(" ++ s.name ++ ")")), [])
  ∧ start_network_server (Connector.serial s) env
      = start_network_server (Connector.serial s) env2
  ∧ start_network_client (Connector.serial s) ce sc
      = some (Except.error (ScannerError.param
          ("此处应该是网络参数，但是却收到了串口参数(" ++ s.name ++ ")")), [])
  ∧ start_network_client (Connector.serial s) ce sc
      = start_network_client (Connector.serial s) ce2 sc2
  ∧ start_serial ⟨Connector.network n, t, q⟩ senv
      = some (Except.error (ScannerError.param
          ("此处应该是串口参数，但是却收到了网络参数(" ++ n.ip ++ ":" ++
            toString n.port ++ ")")), [])
  ∧ start_serial ⟨Connector.network n, t, q⟩ senv
      = start_serial ⟨Connector.network n, t, q⟩ senv2 :=
  ⟨rfl, rfl, rfl, rfl, rfl, rfl⟩

/-- Claim C10: the serial open uses only the descriptor's name and
baud rate plus the configured-or-default timeout; stop bits, parity
and data bits are hardcoded to One / None / 8, so two descriptors
agreeing on name and baud rate produce identical open settings no
matter what their framing fields say. -/
theorem c10_serial_open_ignores_framing (c1 c2 : Serial) (t : Option Nat)
    (hname : c1.name = c2.name) (hbaud : c1.baudrate = c2.baudrate) :
    serialOpenSettings c1 t = serialOpenSettings c2 t
  ∧ (serialOpenSettings c1 t).stopbits = StopBits.one
  ∧ (serialOpenSettings c1 t).parity = Parity.none
  ∧ (serialOpenSettings c1 t).databits = 8
  ∧ (serialOpenSettings c1 t).timeoutSecs = t.getD 60 := by
  refine ⟨?_, rfl, rfl, rfl, rfl⟩
  simp [serialOpenSettings, hname, hbaud]

/-- Witness for C10: two `"COM1"` descriptors at 9600 baud with
different data bits, stop bits and parity open identically. -/
theorem c10_serial_open_ignores_framing_witness :
    serialOpenSettings ⟨"COM1", 9600, 7, StopBits.two, Parity.even⟩ none
      = serialOpenSettings ⟨"COM1", 9600, 8, StopBits.one, Parity.none⟩ none
  ∧ (serialOpenSettings ⟨"COM1", 9600, 7, StopBits.two, Parity.even⟩ none).stopbits
      = StopBits.one
  ∧ (serialOpenSettings ⟨"COM1", 9600, 7, StopBits.two, Parity.even⟩ none).parity
      = Parity.none
  ∧ (serialOpenSettings ⟨"COM1", 9600, 7, StopBits.two, Parity.even⟩ none).databits = 8
  ∧ (serialOpenSettings ⟨"COM1", 9600, 7, StopBits.two, Parity.even⟩ none).timeoutSecs
      = (none : Option Nat).getD 60 :=
  c10_serial_open_ignores_framing ⟨"COM1", 9600, 7, StopBits.two, Parity.even⟩
    ⟨"COM1", 9600, 8, StopBits.one, Parity.none⟩ none rfl rfl

/-! ## Claim C4: command channel FIFO -/

/-- Enqueueing a batch that fits in the channel succeeds and appends
in order. -/
theorem enqueueAll_fifo (cs : List String) (q : List String)
    (h : q.length + cs.length ≤ channelCapacity) :
    enqueueAll q cs = some (q ++ cs) := by
  induction cs generalizing q with
  | nil => simp [enqueueAll]
  | cons c cs ih =>
    have hlt : q.length < channelCapacity := by
      simp only [List.length_cons] at h
      omega
    have hrec := ih (q ++ [c]) (by simp only [List.length_append,
      List.length_cons, List.length_nil] at h ⊢; omega)
    simp [enqueueAll, channelSend, hlt, hrec]

/-- The writer loop writes the buffered commands to the wire
unchanged and in order. -/
theorem writerDrain_eq (q : List String) : writerDrain q = q := by
  induction q with
  | nil => rfl
  | cons c r ih => simp [writerDrain, ih]

/-- Failed connection attempts leave the queue untouched; the first
successful session drains it. -/
theorem clientManagerWire_first_success (fails : List String) (q : List String) :
    clientManagerWire (fails.map some ++ [none]) q = writerDrain q := by
  induction fails with
  | nil => rfl
  | cons f fs ih => simpa [clientManagerWire] using ih

/-- Claim C4: commands enqueued via `send_message` before a session
exists or while disconnected pass through the single bounded channel
of capacity 100 created in `Scanner::new`; any number of failed
connection attempts later, the first successful session's writer sees
exactly the enqueue order on the wire. -/
theorem c4_command_fifo (cmds : List String) (fails : List String)
    (h : cmds.length ≤ channelCapacity) :
    enqueueAll [] cmds = some cmds
  ∧ clientManagerWire (fails.map some ++ [none]) cmds = cmds
  ∧ channelCapacity = 100 := by
  refine ⟨?_, ?_, rfl⟩
  · simpa using enqueueAll_fifo cmds [] (by simpa using h)
  · rw [clientManagerWire_first_success, writerDrain_eq]

/-- Witness for C4: `send("A"); send("B")` before connecting, one
failed connect, then the wire sees `"A"` then `"B"`. -/
theorem c4_command_fifo_witness :
    enqueueAll [] ["A", "B"] = some ["A", "B"]
  ∧ clientManagerWire ([ "connection refused" ].map some ++ [none]) ["A", "B"]
      = ["A", "B"]
  ∧ channelCapacity = 100 :=
  c4_command_fifo ["A", "B"] ["connection refused"] (by decide)

/-! ## Claim C3: reader-driven shutdown discipline -/

/-- Invariant of reachable session states: the session has returned
only after the reader ended, and its return has aborted the writer. -/
theorem sessionReturn_inv {s : SessionState} (h : SessionReachable s) :
    s.returned = true → s.writerAborted = true ∧ s.readerDone = true := by
  induction h with
  | init => intro hret; simp [initSession] at hret
  | step _ hst ih =>
    cases hst with
    | writerSend h1 h2 => exact fun hret => ih hret
    | writerFail h1 h2 => exact fun hret => ih hret
    | readerEnd h => exact fun hret => ⟨(ih hret).1, rfl⟩
    | joinAbort h1 h2 => exact fun _ => ⟨rfl, h1⟩

/-- Invariant of reachable session states: the writer is aborted only
by the session's returning step, so an aborted writer means the
session has returned and the reader had ended. -/
theorem sessionAbort_inv {s : SessionState} (h : SessionReachable s) :
    s.writerAborted = true → s.returned = true ∧ s.readerDone = true := by
  induction h with
  | init => intro hab; simp [initSession] at hab
  | step _ hst ih =>
    cases hst with
    | writerSend h1 h2 => exact fun hab => ih hab
    | writerFail h1 h2 => exact fun hab => ih hab
    | readerEnd h => exact fun hab => ⟨(ih hab).1, rfl⟩
    | joinAbort h1 h2 => exact fun _ => ⟨rfl, h1⟩

/-- Claim C3, counterexample: the original claim's "after the reader's
termination the writer performs no further sends" fails.  The state in
which the reader loop has ended (for instance on the zero-byte read of
a TCP half-close, which leaves our write half open) but the session
has not yet aborted the writer is reachable, and from it the writer —
whose loop never consults the reader's state — can still complete a
successful send, incrementing the send count. -/
theorem c3_send_after_reader_end_cex :
    SessionReachable
      { readerDone := true, writerDone := false, writerAborted := false,
        returned := false, sends := 0 }
  ∧ ({ readerDone := true, writerDone := false, writerAborted := false,
        returned := false, sends := 0 } : SessionState).readerDone = true
  ∧ SessionStep
      { readerDone := true, writerDone := false, writerAborted := false,
        returned := false, sends := 0 }
      { readerDone := true, writerDone := false, writerAborted := false,
        returned := false, sends := 1 } :=
  ⟨SessionReachable.step SessionReachable.init
      (SessionStep.readerEnd initSession rfl),
   rfl,
   SessionStep.writerSend
      { readerDone := true, writerDone := false, writerAborted := false,
        returned := false, sends := 0 } rfl rfl⟩

/-- Claim C3 (amended): in every reachable session state, (i) once the
session has returned the writer has been forcibly aborted and the
reader had ended — the abort is the session's returning step, taken
only after the reader's termination; (ii) once the writer is aborted
the session takes no step at all, in particular no further send;
(iii) while the reader is still running the session has not returned —
a writer failure alone never ends the session — and (iv) the reader's
ending step stays enabled after a writer failure.  (Between the
reader's termination and the abort, however, the writer can still
complete a send: see the counterexample.) -/
theorem c3_reader_driven_shutdown (s t : SessionState)
    (hr : SessionReachable s) :
    (s.returned = true → s.writerAborted = true ∧ s.readerDone = true)
  ∧ (s.writerAborted = true → ¬ SessionStep s t)
  ∧ (SessionStep s t → s.readerDone = false → t.returned = false)
  ∧ (s.readerDone = false → SessionStep s { s with readerDone := true }) := by
  refine ⟨sessionReturn_inv hr, ?_, ?_, ?_⟩
  · intro hab hst
    cases hst with
    | writerSend h1 h2 => rw [hab] at h2; cases h2
    | writerFail h1 h2 => rw [hab] at h2; cases h2
    | readerEnd h => rw [(sessionAbort_inv hr hab).2] at h; cases h
    | joinAbort h1 h2 => rw [(sessionAbort_inv hr hab).1] at h2; cases h2
  · intro hst hd
    have hsret : s.returned = false := by
      cases hret : s.returned with
      | false => rfl
      | true =>
        have := (sessionReturn_inv hr hret).2
        rw [hd] at this
        cases this
    cases hst with
    | writerSend h1 h2 => exact hsret
    | writerFail h1 h2 => exact hsret
    | readerEnd h => exact hsret
    | joinAbort h1 h2 => rw [hd] at h1; cases h1
  · intro hd
    exact SessionStep.readerEnd s hd

/-- Witness for C3's amended theorem at the reachable state in which
the writer has already failed but the reader is still running: the
session has not returned after the reader-end step, and that step is
enabled. -/
theorem c3_reader_driven_shutdown_witness :
    ({ readerDone := true, writerDone := true, writerAborted := false,
        returned := false, sends := 0 } : SessionState).returned = false
  ∧ SessionStep
      { readerDone := false, writerDone := true, writerAborted := false,
        returned := false, sends := 0 }
      { readerDone := true, writerDone := true, writerAborted := false,
        returned := false, sends := 0 } :=
  have hr : SessionReachable
      { readerDone := false, writerDone := true, writerAborted := false,
        returned := false, sends := 0 } :=
    SessionReachable.step SessionReachable.init
      (SessionStep.writerFail initSession rfl rfl)
  have hst : SessionStep
      { readerDone := false, writerDone := true, writerAborted := false,
        returned := false, sends := 0 }
      { readerDone := true, writerDone := true, writerAborted := false,
        returned := false, sends := 0 } :=
    SessionStep.readerEnd _ rfl
  have hthm := c3_reader_driven_shutdown
      { readerDone := false, writerDone := true, writerAborted := false,
        returned := false, sends := 0 }
      { readerDone := true, writerDone := true, writerAborted := false,
        returned := false, sends := 0 } hr
  ⟨hthm.2.2.1 hst rfl, hthm.2.2.2 rfl⟩

/-! ## Claim C1: line splitting in the reader loops -/

/-- Decoding the empty chunk. -/
theorem utf8Lossy_nil : utf8Lossy [] = [] := rfl

/-- One decoding step on an ASCII byte. -/
theorem utf8LossyGo_cons_ascii (fuel b : Nat) (rest : List Nat) (h : b < 128) :
    utf8LossyGo (fuel + 1) (b :: rest) = Char.ofNat b :: utf8LossyGo fuel rest := by
  simp [utf8LossyGo, h]

/-- Lossy decoding passes an ASCII prefix through unchanged. -/
theorem utf8Lossy_ascii_append (l : List Char) (bs : List Nat)
    (h : ∀ c ∈ l, c.toNat < 128) :
    utf8Lossy (l.map Char.toNat ++ bs) = l ++ utf8Lossy bs := by
  induction l with
  | nil => simp
  | cons c cs ih =>
    have hc : c.toNat < 128 := h c (List.mem_cons_self c cs)
    have hrec := ih fun x hx => h x (List.mem_cons_of_mem c hx)
    calc utf8Lossy (List.map Char.toNat (c :: cs) ++ bs)
        = utf8LossyGo ((List.map Char.toNat cs ++ bs).length + 1)
            (c.toNat :: (List.map Char.toNat cs ++ bs)) := by
          simp [utf8Lossy]
      _ = Char.ofNat c.toNat ::
            utf8LossyGo (List.map Char.toNat cs ++ bs).length
              (List.map Char.toNat cs ++ bs) :=
          utf8LossyGo_cons_ascii _ _ _ hc
      _ = c :: utf8Lossy (List.map Char.toNat cs ++ bs) := by
          rw [Char.ofNat_toNat]; rfl
      _ = (c :: cs) ++ utf8Lossy bs := by rw [hrec]; rfl

/-- Splitting walks over a terminator-free prefix, accumulating it. -/
theorem splitByAux_no_term (p : Char → Bool) (l cs acc : List Char)
    (h : ∀ c ∈ l, p c = false) :
    splitByAux p (l ++ cs) acc = splitByAux p cs (l.reverse ++ acc) := by
  induction l generalizing acc with
  | nil => simp
  | cons c l2 ih =>
    have hc : p c = false := h c (List.mem_cons_self c l2)
    rw [List.cons_append]
    show (if p c then acc.reverse :: splitByAux p (l2 ++ cs) []
          else splitByAux p (l2 ++ cs) (c :: acc)) = _
    rw [if_neg (by simp [hc])]
    rw [ih (c :: acc) (fun x hx => h x (List.mem_cons_of_mem c hx))]
    simp

/-- One splitting step on a terminator character. -/
theorem splitByAux_cons_term (p : Char → Bool) (c : Char) (cs acc : List Char)
    (h : p c = true) :
    splitByAux p (c :: cs) acc = acc.reverse :: splitByAux p cs [] := by
  simp [splitByAux, h]

/-- The byte chunk sent by a device that scans `lines` one after
another, each barcode terminated by `"\r\n"` (ASCII encoding). -/
def encodeLines (lines : List (List Char)) : List Nat :=
  ((lines.map fun l => (l ++ ['\r', '\n']).map Char.toNat)).flatten

/-- A well-formed barcode line: non-empty, ASCII, terminator-free. -/
def GoodLine (l : List Char) : Prop :=
  l ≠ [] ∧ ∀ c ∈ l, c.toNat < 128 ∧ isLineTerm c = false

instance (l : List Char) : Decidable (GoodLine l) := by
  unfold GoodLine; infer_instance

/-- Splitting a `"\r\n"`-terminated concatenation of terminator-free
lines produces each line followed by one empty segment (between
`'\r'` and `'\n'`), with one final empty segment at the end. -/
theorem splitByAux_encoded (lines : List (List Char))
    (h : ∀ l ∈ lines, ∀ c ∈ l, isLineTerm c = false) :
    splitByAux isLineTerm ((lines.map fun l => l ++ ['\r', '\n'])).flatten []
      = lines.foldr (fun l r => l :: [] :: r) [[]] := by
  induction lines with
  | nil => rfl
  | cons l ls ih =>
    have hl : ∀ c ∈ l, isLineTerm c = false := h l (List.mem_cons_self l ls)
    have hrec := ih fun l2 hl2 => h l2 (List.mem_cons_of_mem l hl2)
    rw [List.map_cons, List.flatten_cons, List.append_assoc,
      splitByAux_no_term _ _ _ _ hl]
    simp only [List.cons_append, List.nil_append]
    rw [splitByAux_cons_term _ _ _ _ (by decide),
      splitByAux_cons_term _ _ _ _ (by decide), hrec]
    simp

/-- Filtering the split keeps exactly the (non-empty) lines. -/
theorem filter_encoded (lines : List (List Char)) (h : ∀ l ∈ lines, l ≠ []) :
    (lines.foldr (fun l r => l :: [] :: r) [[]]).filter
        (fun b => b.length > 0)
      = lines := by
  induction lines with
  | nil => rfl
  | cons l ls ih =>
    have hl : 0 < l.length := List.length_pos.mpr (h l (List.mem_cons_self l ls))
    have hrec := ih fun x hx => h x (List.mem_cons_of_mem l hx)
    simp only [List.foldr_cons, List.filter_cons]
    rw [if_pos (by simpa using hl), if_neg (by simp)]
    rw [hrec]

/-- The serial chunk processing emits exactly the scanned lines. -/
theorem serialChunkEvents_encoded (lines : List (List Char))
    (h : ∀ l ∈ lines, GoodLine l) :
    serialChunkEvents (encodeLines lines) = lines.map String.mk := by
  have hascii : ∀ c ∈ ((lines.map fun l => l ++ ['\r', '\n'])).flatten,
      c.toNat < 128 := by
    intro c hc
    rcases List.mem_flatten.mp hc with ⟨piece, hpiece, hcpiece⟩
    rcases List.mem_map.mp hpiece with ⟨l, hlmem, rfl⟩
    rcases List.mem_append.mp hcpiece with hin | hterm
    · exact ((h l hlmem).2 c hin).1
    · have hce : c = '\r' ∨ c = '\n' := by simpa using hterm
      rcases hce with rfl | rfl <;> decide
  have hdec : utf8Lossy (encodeLines lines)
      = ((lines.map fun l => l ++ ['\r', '\n'])).flatten := by
    have henc : encodeLines lines
        = (((lines.map fun l => l ++ ['\r', '\n'])).flatten).map Char.toNat := by
      rw [encodeLines, List.map_flatten, List.map_map]
      rfl
    have hstep := utf8Lossy_ascii_append
      ((lines.map fun l => l ++ ['\r', '\n'])).flatten [] hascii
    rw [List.append_nil, utf8Lossy_nil, List.append_nil] at hstep
    rw [henc, hstep]
  rw [serialChunkEvents, hdec,
    splitByAux_encoded lines (fun l hl => fun c hc => ((h l hl).2 c hc).2),
    filter_encoded lines (fun l hl => (h l hl).1)]

/-- Non-emptiness of an encoded chunk. -/
theorem encodeLines_ne_nil (lines : List (List Char)) (hne : lines ≠ []) :
    (encodeLines lines).length ≠ 0 := by
  cases lines with
  | nil => exact absurd rfl hne
  | cons l ls => simp [encodeLines]

/-- Claim C1, counterexample: reading the bytes `"ABC\r\n"`, the
network reader loop (server and client alike) emits exactly one event
whose value is the whole decoded chunk `"ABC\r\n"` — not the event
`"ABC"` the claim requires; only the serial loop splits the chunk and
emits `"ABC"`. -/
theorem c1_network_reader_does_not_split :
    (networkReadLoop [ReadStep.ok [65, 66, 67, 13, 10]]).1 = ["ABC\r\n"]
  ∧ (["ABC\r\n"] : List String) ≠ ["ABC"]
  ∧ serialChunkEvents [65, 66, 67, 13, 10] = ["ABC"] :=
  ⟨by decide, by decide, by decide⟩

/-- Claim C1 (amended): only the serial session splits.  When the
serial reader loop reads a chunk consisting of non-empty ASCII,
terminator-free lines each terminated by `"\r\n"`, it decodes the
chunk as lossy UTF-8, splits on `'\r'`/`'\n'` and emits exactly one
barcode event per line, in order (so `"ABC\r\n"` emits exactly
`"ABC"`, and `"X\r\nY\r\n"` emits `"X"` then `"Y"`); the network
sessions (server and client) instead emit a single event carrying the
entire decoded chunk, terminators included, without splitting. -/
theorem c1_line_splitting (lines : List (List Char)) (rest : List ReadStep)
    (hne : lines ≠ []) (h : ∀ l ∈ lines, GoodLine l) :
    (serialReadLoop (ReadStep.ok (encodeLines lines) :: rest)).1
      = lines.map String.mk ++ (serialReadLoop rest).1
  ∧ (networkReadLoop (ReadStep.ok (encodeLines lines) :: rest)).1
      = String.mk ((lines.map fun l => l ++ ['\r', '\n'])).flatten ::
          (networkReadLoop rest).1 := by
  have hlen := encodeLines_ne_nil lines hne
  have hdec : utf8Lossy (encodeLines lines)
      = ((lines.map fun l => l ++ ['\r', '\n'])).flatten := by
    have hascii : ∀ c ∈ ((lines.map fun l => l ++ ['\r', '\n'])).flatten,
        c.toNat < 128 := by
      intro c hc
      rcases List.mem_flatten.mp hc with ⟨piece, hpiece, hcpiece⟩
      rcases List.mem_map.mp hpiece with ⟨l, hlmem, rfl⟩
      rcases List.mem_append.mp hcpiece with hin | hterm
      · exact ((h l hlmem).2 c hin).1
      · have hce : c = '\r' ∨ c = '\n' := by simpa using hterm
        rcases hce with rfl | rfl <;> decide
    have henc : encodeLines lines
        = (((lines.map fun l => l ++ ['\r', '\n'])).flatten).map Char.toNat := by
      rw [encodeLines, List.map_flatten, List.map_map]
      rfl
    have hstep := utf8Lossy_ascii_append
      ((lines.map fun l => l ++ ['\r', '\n'])).flatten [] hascii
    rw [List.append_nil, utf8Lossy_nil, List.append_nil] at hstep
    rw [henc, hstep]
  constructor
  · simp only [serialReadLoop, hlen, if_false]
    simp [serialChunkEvents_encoded lines h]
  · simp only [networkReadLoop, hlen, if_false]
    simp [hdec]

/-- Witness for C1's amended theorem: the chunk `"ABC\r\n"` emits the
single serial event `"ABC"` (network: the single unsplit event), and
the chunk `"X\r\nY\r\n"` emits the serial events `"X"` then `"Y"`. -/
theorem c1_line_splitting_witness :
    ((serialReadLoop (ReadStep.ok (encodeLines [['A', 'B', 'C']]) :: [])).1
        = [['A', 'B', 'C']].map String.mk ++ (serialReadLoop []).1
      ∧ (networkReadLoop (ReadStep.ok (encodeLines [['A', 'B', 'C']]) :: [])).1
          = String.mk (([['A', 'B', 'C']].map fun l => l ++ ['\r', '\n'])).flatten ::
              (networkReadLoop []).1)
  ∧ (serialReadLoop (ReadStep.ok (encodeLines [['X'], ['Y']]) :: [])).1
      = [['X'], ['Y']].map String.mk ++ (serialReadLoop []).1 :=
  ⟨c1_line_splitting [['A', 'B', 'C']] [] (by decide) (by decide),
   (c1_line_splitting [['X'], ['Y']] [] (by decide) (by decide)).1⟩

end KimScanner
